import Mathlib

/-!
Shallow embedding of the chat frontend of the Mindhive chatbot repository
(localStorage persistence utilities, the `useChat` hook, `ChatWindow.handleSend`,
`InputComposer.handleSend`, the `ErrorBoundary` component, and the `ChatResponse`
contract from `services/api.ts`), together with a spec-modelled action selector
for the backend planner whose source is not part of the frontend tree.

JavaScript strings are Lean `String`s; `undefined`/absent fields are `Option`;
`localStorage` is an `Option StoredValue` threaded explicitly; thrown errors are
modelled as an explicit failure constructor.
-/

namespace RagZus

/-- Message roles, from the `"user" | "assistant" | "system"` union type. -/
inductive Role
  | user
  | assistant
  | system
  deriving DecidableEq, Repr

/-- A tool-call record, from the `tool_calls` element type in `services/api.ts`
(`{tool: string, input: Record<string, any>, output: Record<string, any>}`);
the dynamic `Record<string, any>` payloads are modelled as string key/value lists,
since no claim inspects their values. -/
structure ToolCallRec where
  tool : String
  input : List (String × String)
  output : List (String × String)
  deriving DecidableEq, Repr

/-- `ChatMessage` from `services/api.ts`: role, content, optional timestamp,
optional tool calls, optional intent. -/
structure ChatMessage where
  role : Role
  content : String
  timestamp : Option String
  tool_calls : Option (List ToolCallRec)
  intent : Option String
  deriving DecidableEq, Repr

/-- `StoredMessage` from the localStorage utility: role, content, timestamp. -/
structure StoredMessage where
  role : Role
  content : String
  timestamp : String
  deriving DecidableEq, Repr

/-- What `localStorage.getItem(CHAT_HISTORY_KEY)` can hold after `JSON.parse`:
an array of messages, some non-array JSON value, or a string on which
`JSON.parse` throws. -/
inductive StoredValue
  | arr (msgs : List StoredMessage)
  | nonArray
  | malformed
  deriving DecidableEq, Repr

/-- `MAX_HISTORY_LENGTH` from the localStorage utility. -/
def MAX_HISTORY_LENGTH : Nat := 50

/-- `saveChatHistory` (localStorage utility): keeps only the last
`MAX_HISTORY_LENGTH` messages (`messages.slice(-MAX_HISTORY_LENGTH)`) and
stores their JSON serialization under the history key. `slice(-n)` is the
suffix of length at most `n`, i.e. `drop (length - n)` with truncated
subtraction. The `catch` branch (quota errors) is outside this model: the
function returns the value stored on the success path. -/
def saveChatHistory (messages : List StoredMessage) : Option StoredValue :=
  some (.arr (messages.drop (messages.length - MAX_HISTORY_LENGTH)))

/-- `loadChatHistory` (localStorage utility): empty list when nothing is
stored, when the stored value is not an array, or when `JSON.parse` throws;
otherwise the parsed array. -/
def loadChatHistory : Option StoredValue → List StoredMessage
  | none => []
  | some (.arr msgs) => msgs
  | some .nonArray => []
  | some .malformed => []

/-- `clearChatHistory` (localStorage utility): `localStorage.removeItem`. -/
def clearChatHistory : Option StoredValue := none

/-- `String.prototype.toLowerCase()` (ASCII range, the only one the reset
check needs): lowercase every character. -/
def jsToLower (s : String) : String :=
  ⟨s.data.map Char.toLower⟩

/-- `String.prototype.trim()`: drop whitespace from both ends. -/
def jsTrim (s : String) : String :=
  ⟨((s.data.dropWhile Char.isWhitespace).reverse.dropWhile Char.isWhitespace).reverse⟩

/-- A memory summary, from the `memory?: Record<string, any>` field of
`ChatResponse`; modelled as string key/value pairs (no claim inspects
the values). -/
abbrev MemorySummary := List (String × String)

/-- `ChatResponse` from `services/api.ts`: `response` is required, while
`tool_calls`, `intent` and `memory` are optional (`?`) fields. -/
structure ChatResponse where
  response : String
  tool_calls : Option (List ToolCallRec)
  intent : Option String
  memory : Option MemorySummary
  deriving DecidableEq

/-- `ChatRequest` from `services/api.ts`: the message plus an optional
history (`sendMessage` always passes one under `useChat`). -/
structure ChatRequest where
  message : String
  history : List ChatMessage
  deriving DecidableEq, Repr

/-- Outcome of `await sendMessage(...)` as seen by the hook's `try`/`catch`:
either a parsed `ChatResponse`, or a thrown value carrying `err.message`
when the value is an `Error` (network failure, non-OK status, malformed
body) and nothing usable otherwise. -/
inductive BackendResult
  | ok (resp : ChatResponse)
  | err (message : Option String)
  deriving DecidableEq

/-- The frontend state touched by `useChat` plus the persisted history:
`messages`, `isLoading`, `error`, and the localStorage slot written by the
save effect. -/
structure ChatState where
  messages : List ChatMessage
  isLoading : Bool
  error : Option String
  storage : Option StoredValue
  deriving DecidableEq

/-- JavaScript truthiness on an optional string: `s && {...}` spreads the
field only when `s` is present and non-empty. -/
def jsTruthyStr : Option String → Option String
  | some "" => none
  | o => o

/-- The user message appended by `handleSendMessage`
(`{role: "user", content: message.trim(), timestamp: now}`). -/
def mkUserMessage (message : String) (now : String) : ChatMessage :=
  ⟨.user, jsTrim message, some now, none, none⟩

/-- The assistant message built from a successful `ChatResponse`:
`tool_calls` and `intent` are spread in only when truthy. -/
def mkAssistantMessage (resp : ChatResponse) (now : String) : ChatMessage :=
  ⟨.assistant, resp.response, some now,
    resp.tool_calls, jsTruthyStr resp.intent⟩

/-- The error text used by the `catch` branch: `err.message` when the thrown
value is an `Error`, otherwise the fixed fallback string. -/
def errorText (e : Option String) : String :=
  e.getD "Failed to send message"

/-- The apologetic assistant message appended by the `catch` branch. -/
def mkErrorChatMessage (e : Option String) (now : String) : ChatMessage :=
  ⟨.assistant,
    "Sorry, I encountered an error: " ++ errorText e ++ ". Please try again.",
    some now, none, none⟩

/-- The per-request history view: `messages.slice(-20)` mapped to
`{role, content, timestamp}` (tool calls and intent dropped). -/
def recentHistory (messages : List ChatMessage) : List ChatMessage :=
  (messages.drop (messages.length - 20)).map
    fun m => ⟨m.role, m.content, m.timestamp, none, none⟩

/-- `handleSendMessage` from the `useChat` hook: early return on blank input
or while loading; otherwise append the user message, clear the error, issue
the chat request with the last 20 prior messages as history, and append
either the assistant response or the apologetic error message; `isLoading`
is cleared in `finally`. Returns the new state and the request issued, if
any. -/
def handleSendMessage (st : ChatState) (message : String)
    (backend : BackendResult) (now : String) : ChatState × Option ChatRequest :=
  if jsTrim message = "" ∨ st.isLoading then (st, none)
  else
    let userMessage := mkUserMessage message now
    let req : ChatRequest := ⟨message, recentHistory st.messages⟩
    match backend with
    | .ok resp =>
        (⟨st.messages ++ [userMessage, mkAssistantMessage resp now],
          false, none, st.storage⟩, some req)
    | .err e =>
        (⟨st.messages ++ [userMessage, mkErrorChatMessage e now],
          false, some (errorText e), st.storage⟩, some req)

/-- The conversion applied by the save effect before persisting:
`{role, content, timestamp: msg.timestamp || now}`. -/
def toStoredMessage (now : String) (m : ChatMessage) : StoredMessage :=
  ⟨m.role, m.content, (jsTruthyStr m.timestamp).getD now⟩

/-- The `useEffect` that persists `messages` whenever they change (and are
non-empty): saves the stored-message view through `saveChatHistory`. -/
def persistEffect (now : String) (st : ChatState) : ChatState :=
  if st.messages = [] then st
  else { st with storage := saveChatHistory (st.messages.map (toStoredMessage now)) }

/-- One frontend turn of the hook: `handleSendMessage` followed by the save
effect, which only fires when `messages` changed. -/
def chatTurn (st : ChatState) (message : String)
    (backend : BackendResult) (now : String) : ChatState × Option ChatRequest :=
  let r := handleSendMessage st message backend now
  if r.1.messages = st.messages then r else (persistEffect now r.1, r.2)

/-- The reset test in `ChatWindow.handleSend`:
`message.toLowerCase().trim() === "reset" || ... === "/reset"`. -/
def isResetCommand (message : String) : Bool :=
  jsTrim (jsToLower message) == "reset" || jsTrim (jsToLower message) == "/reset"

/-- `handleClearChat` from the hook: empty the message list, clear the error
state, remove the persisted history. `isLoading` is untouched. -/
def clearChat (st : ChatState) : ChatState :=
  ⟨[], st.isLoading, none, clearChatHistory⟩

/-- `ChatWindow.handleSend`: reset commands clear the chat and return;
everything else goes to the hook's send function. -/
def handleSend (st : ChatState) (message : String)
    (backend : BackendResult) (now : String) : ChatState × Option ChatRequest :=
  if isResetCommand message then (clearChat st, none)
  else chatTurn st message backend now

/-- `InputComposer.handleSend`: `onSend(message)` is invoked only when the
trimmed message is non-empty and the composer is not disabled. -/
def composerSend (message : String) (disabled : Bool) : Option String :=
  if jsTrim message ≠ "" ∧ disabled = false then some message else none

/-- A JavaScript `Error` as the `ErrorBoundary` sees it: a name (the
exception type, e.g. `"TypeError"`) and a message. -/
structure JsError where
  name : String
  message : String
  deriving DecidableEq, Repr

/-- `Error.prototype.toString()`: `name + ": " + message`, degenerating to
just one part when the other is empty. -/
def JsError.toStringJs (e : JsError) : String :=
  if e.name = "" then e.message
  else if e.message = "" then e.name
  else e.name ++ ": " ++ e.message

/-- React `ErrorInfo` as consumed by `componentDidCatch`. -/
structure ErrorInfo where
  componentStack : String
  deriving DecidableEq, Repr

/-- The text after the apology in `ErrorBoundary.render`: when an error
object is present, the collapsible section (summary `"Error Details"`, then
`error.toString()` and the component stack) followed by the two buttons;
otherwise just the buttons. -/
def boundaryTail : Option JsError → Option ErrorInfo → String
  | some e, info =>
      "Error Details" ++
        (e.toStringJs ++
          (((info.map ErrorInfo.componentStack).getD "") ++ "Reload PageGo Home"))
  | none, _ => "Reload PageGo Home"

/-- The user-visible text rendered by `ErrorBoundary.render` in the
error state (no `fallback` prop), flattened in document order: the alert
title, the apologetic paragraph with its recovery prompt, and the tail. -/
def errorBoundaryText (error : Option JsError) (errorInfo : Option ErrorInfo) : String :=
  "Something went wrongAn unexpected error occurred. Please try refreshing the page." ++
    boundaryTail error errorInfo

/-- Modelled from the spec: the closed intent set of §3/§4.1 (the backend
`agent_planner.py` is not in the tree, only its README). -/
inductive Intent
  | calculator
  | product_search
  | outlet_query
  | general_chat
  | reset
  deriving DecidableEq, Repr

/-- Modelled from the spec: `SlotExtraction` of §3 — filled slots, the
ordered list of required-but-absent slot names, and the follow-up marker of
§4.2 (set for outlet queries that reference cached prior results). -/
structure SlotExtraction where
  filled : List (String × String)
  missing : List String
  followUp : Bool
  deriving DecidableEq, Repr

/-- Modelled from the spec: the memory snapshot the Action Selector reads
(§4.4) — cached context entries and whether a prior result set
(`"last_location_results"`) is cached. -/
structure MemorySnapshot where
  context : List (String × String)
  hasLastResults : Bool
  deriving DecidableEq, Repr

/-- Modelled from the spec: the action type of §4.4 — exactly one of
ask-clarification (naming the missing slots), call-tool, or
respond-directly. -/
inductive Action
  | askClarification (slotNames : List String)
  | callTool (name : String) (input : List (String × String))
  | respondDirect
  deriving DecidableEq, Repr

/-- Modelled from the spec: the tool-bearing intents (those mapped to a
tool by §4.2/§4.4). -/
def toolBearing : Intent → Bool
  | .calculator => true
  | .product_search => true
  | .outlet_query => true
  | .general_chat => false
  | .reset => false

/-- Modelled from the spec: the intent-to-tool mapping of §4.4 rule 4 /
§6 (calculator, retrieval, query-translation). -/
def mappedTool : Intent → String
  | .calculator => "calculator"
  | .product_search => "products"
  | _ => "outlets"

/-- Modelled from the spec: a compatible cached context can substitute for
a missing slot exactly on the follow-up path of §4.4 rule 3 — the intent is
`outlet_query`, the extraction carries the follow-up marker, and context
holds a prior result set. -/
def canSubstitute (intent : Intent) (ex : SlotExtraction) (mem : MemorySnapshot) : Bool :=
  intent == .outlet_query && ex.followUp && mem.hasLastResults

/-- Modelled from the spec: the ordered decision procedure of §4.4, first
match applies; rule 1 additionally resets the Context Store before
responding, which is outside this selector's output. -/
def selectAction (intent : Intent) (ex : SlotExtraction) (mem : MemorySnapshot) : Action :=
  if intent = .reset then .respondDirect
  else if toolBearing intent = true ∧ ex.missing ≠ [] ∧ canSubstitute intent ex mem = false then
    .askClarification ex.missing
  else if intent = .outlet_query ∧ ex.followUp = true ∧ mem.hasLastResults = true then
    .callTool "outlets" (ex.filled ++ mem.context)
  else if toolBearing intent = true ∧ ex.missing = [] then
    .callTool (mappedTool intent) ex.filled
  else .respondDirect

/-- Modelled from the spec: a turn invokes a tool exactly when the selected
action is call-tool (§4.6: execute the selected action, at most one tool
call per turn). -/
def actionInvokesTool : Action → Bool
  | .callTool _ _ => true
  | _ => false

end RagZus

namespace RagZus

/-- C2: `saveChatHistory` persists at most `MAX_HISTORY_LENGTH = 50` messages,
and what it persists is exactly a suffix of its input (only the oldest entries
are dropped); hence after any number of save operations the stored history
never exceeds the cap. -/
theorem saveChatHistory_cap_and_suffix (messages : List StoredMessage) :
    ∃ kept : List StoredMessage,
      saveChatHistory messages = some (.arr kept) ∧
      kept.length ≤ MAX_HISTORY_LENGTH ∧
      kept <:+ messages := by
  refine ⟨messages.drop (messages.length - MAX_HISTORY_LENGTH), rfl, ?_, List.drop_suffix _ _⟩
  rw [List.length_drop]
  omega

/-- C8: writing with `saveChatHistory` and reading back with `loadChatHistory`
returns exactly the last `min (length m) 50` messages of `m`; and
`loadChatHistory` is total (never throws), returning `[]` when nothing is
stored, when the stored value is not an array, and when parsing fails. -/
theorem save_load_roundtrip (m : List StoredMessage) :
    loadChatHistory (saveChatHistory m) = m.drop (m.length - MAX_HISTORY_LENGTH) ∧
    (loadChatHistory (saveChatHistory m)).length = min m.length MAX_HISTORY_LENGTH ∧
    loadChatHistory (saveChatHistory m) <:+ m ∧
    loadChatHistory none = [] ∧
    loadChatHistory (some .nonArray) = [] ∧
    loadChatHistory (some .malformed) = [] := by
  refine ⟨rfl, ?_, List.drop_suffix _ _, rfl, rfl, rfl⟩
  show (m.drop (m.length - MAX_HISTORY_LENGTH)).length = _
  rw [List.length_drop]
  omega

end RagZus

namespace RagZus

/-- C1 (counterexample): a whitespace-only utterance is not a reset command,
yet the send handler forwards no chat request for it and leaves the state
untouched — refuting "every other utterance is forwarded to the chat
endpoint". -/
theorem blank_utterance_not_forwarded :
    isResetCommand " " = false ∧
    handleSend ⟨[], false, none, none⟩ " " (.err none) "t" =
      (⟨[], false, none, none⟩, none) := by
  decide

/-- C1 (amended): a reset utterance (lowercased and trimmed `"reset"` or
`"/reset"`) clears the conversation — messages emptied, error cleared,
persisted history removed — and issues no chat request (hence no tool
call); every other utterance is handed to the chat hook, which issues the
chat request exactly when the utterance has non-whitespace content and no
request is in flight: in both directions — the request is issued under
those conditions, and a blank utterance or an in-flight send issues no
request and leaves the state unchanged. -/
theorem handleSend_reset_clears_else_forwards (st : ChatState) (msg : String)
    (b : BackendResult) (now : String) :
    (isResetCommand msg = true →
      handleSend st msg b now = (⟨[], st.isLoading, none, none⟩, none)) ∧
    (isResetCommand msg = false → jsTrim msg ≠ "" → st.isLoading = false →
      (handleSend st msg b now).2 = some ⟨msg, recentHistory st.messages⟩) ∧
    (isResetCommand msg = false → jsTrim msg = "" ∨ st.isLoading = true →
      handleSend st msg b now = (st, none)) := by
  refine ⟨?_, ?_, ?_⟩
  · intro h
    simp [handleSend, h, clearChat, clearChatHistory]
  · intro h h1 h2
    simp only [handleSend, h, Bool.false_eq_true, if_false, chatTurn,
      handleSendMessage, h1, h2, or_self, if_false]
    cases b <;> simp
  · intro h h'
    have hc : jsTrim msg = "" ∨ st.isLoading = true := h'
    simp [handleSend, h, chatTurn, handleSendMessage, hc]

/-- C1 (witness): the amended theorem at `" ReSeT "` (reset path) and
`"hello"` (forward path) on the initial state, and at `"hello"` on an
in-flight (`isLoading = true`) state where no request is issued. -/
theorem handleSend_reset_clears_else_forwards_witness :
    handleSend ⟨[], false, none, none⟩ " ReSeT " (.err none) "t" =
      (⟨[], false, none, none⟩, none) ∧
    (handleSend ⟨[], false, none, none⟩ "hello" (.err none) "t").2 =
      some ⟨"hello", recentHistory []⟩ ∧
    handleSend ⟨[], true, none, none⟩ "hello" (.err none) "t" =
      (⟨[], true, none, none⟩, none) :=
  ⟨(handleSend_reset_clears_else_forwards ⟨[], false, none, none⟩ " ReSeT "
      (.err none) "t").1 (by decide),
   (handleSend_reset_clears_else_forwards ⟨[], false, none, none⟩ "hello"
      (.err none) "t").2.1 (by decide) (by decide) rfl,
   (handleSend_reset_clears_else_forwards ⟨[], true, none, none⟩ "hello"
      (.err none) "t").2.2 (by decide) (Or.inr rfl)⟩

set_option maxRecDepth 8000 in
/-- C3 (counterexample): the error boundary's user-visible text for a caught
`TypeError` contains the exception type name `"TypeError"` and a stack
fragment — refuting "no exception type name and no stack trace fragment is
shown". -/
theorem errorBoundary_shows_exception_type :
    "TypeError".data <:+:
      (errorBoundaryText (some ⟨"TypeError", "x is not a function"⟩)
        (some ⟨" in App in ErrorBoundary"⟩)).data ∧
    " in App in ErrorBoundary".data <:+:
      (errorBoundaryText (some ⟨"TypeError", "x is not a function"⟩)
        (some ⟨" in App in ErrorBoundary"⟩)).data := by
  decide

/-- C3 (amended): every surfaced failure carries a short apologetic message
plus a recovery prompt — the chat failure message embeds only the error's
message text between the apology and the retry prompt, while the error
boundary, after its apology and recovery prompt, additionally exposes the
raw `error.toString()` (type name included) and the component stack inside
its collapsible details section. -/
theorem surfaced_failure_message_shape (em : Option String) (now : String)
    (e : JsError) (info : ErrorInfo) :
    (mkErrorChatMessage em now).content =
      "Sorry, I encountered an error: " ++ (errorText em ++ ". Please try again.") ∧
    errorBoundaryText (some e) (some info) =
      "Something went wrongAn unexpected error occurred. Please try refreshing the page.Error Details" ++
        (e.toStringJs ++ (info.componentStack ++ "Reload PageGo Home")) := by
  exact ⟨rfl, rfl⟩

/-- C4 (counterexample): a turn whose chat request throws does persist a
memory mutation — starting from the empty conversation with nothing stored,
the failed turn leaves a non-empty persisted history. -/
theorem failed_turn_mutates_storage :
    (chatTurn ⟨[], false, none, none⟩ "hi" (.err none) "t").1.storage ≠
      (⟨[], false, none, none⟩ : ChatState).storage := by
  decide

/-- C4 (amended): a turn that fails before completion persists exactly the
user message and the apologetic error message appended to the prior
conversation (with the error state set and loading cleared); the stored
history after the failed turn is the save of that extended message list,
not the pre-turn store. -/
theorem failed_turn_persists_error_exchange (st : ChatState) (msg : String)
    (e : Option String) (now : String)
    (h1 : jsTrim msg ≠ "") (h2 : st.isLoading = false) :
    (chatTurn st msg (.err e) now).1.messages =
      st.messages ++ [mkUserMessage msg now, mkErrorChatMessage e now] ∧
    (chatTurn st msg (.err e) now).1.storage =
      saveChatHistory
        ((st.messages ++ [mkUserMessage msg now, mkErrorChatMessage e now]).map
          (toStoredMessage now)) ∧
    (chatTurn st msg (.err e) now).1.error = some (errorText e) ∧
    (chatTurn st msg (.err e) now).1.isLoading = false := by
  have hne : st.messages ++ [mkUserMessage msg now, mkErrorChatMessage e now] ≠
      st.messages := by
    intro h
    have := congrArg List.length h
    simp at this
  simp [chatTurn, handleSendMessage, h1, h2, hne, persistEffect]

/-- C4 (witness): the amended theorem at the empty initial state, message
`"hi"`, a thrown non-`Error` value, timestamp `"t"`. -/
theorem failed_turn_persists_error_exchange_witness :
    (chatTurn ⟨[], false, none, none⟩ "hi" (.err none) "t").1.messages =
      [] ++ [mkUserMessage "hi" "t", mkErrorChatMessage none "t"] ∧
    (chatTurn ⟨[], false, none, none⟩ "hi" (.err none) "t").1.storage =
      saveChatHistory
        (([] ++ [mkUserMessage "hi" "t", mkErrorChatMessage none "t"]).map
          (toStoredMessage "t")) ∧
    (chatTurn ⟨[], false, none, none⟩ "hi" (.err none) "t").1.error =
      some (errorText none) ∧
    (chatTurn ⟨[], false, none, none⟩ "hi" (.err none) "t").1.isLoading = false :=
  failed_turn_persists_error_exchange ⟨[], false, none, none⟩ "hi" none "t"
    (by decide) rfl

end RagZus

namespace RagZus

/-- C5 (spec-modelled): whenever the intent is tool-bearing, a required slot
is missing, and no compatible cached context can substitute, the selected
action is AskClarification naming exactly the missing slots, and no tool is
invoked in that turn. -/
theorem missing_slot_asks_clarification (intent : Intent) (ex : SlotExtraction)
    (mem : MemorySnapshot) (h1 : toolBearing intent = true)
    (h2 : ex.missing ≠ []) (h3 : canSubstitute intent ex mem = false) :
    selectAction intent ex mem = .askClarification ex.missing ∧
    actionInvokesTool (selectAction intent ex mem) = false := by
  have hr : intent ≠ .reset := by
    rintro rfl
    simp [toolBearing] at h1
  rw [selectAction, if_neg hr, if_pos ⟨h1, h2, h3⟩]
  exact ⟨rfl, rfl⟩

/-- C5 (witness): a calculator utterance with the `expression` slot missing
and nothing cached. -/
theorem missing_slot_asks_clarification_witness :
    selectAction .calculator ⟨[], ["expression"], false⟩ ⟨[], false⟩ =
      .askClarification ["expression"] ∧
    actionInvokesTool
      (selectAction .calculator ⟨[], ["expression"], false⟩ ⟨[], false⟩) = false :=
  missing_slot_asks_clarification .calculator ⟨[], ["expression"], false⟩
    ⟨[], false⟩ (by decide) (by decide) (by decide)

/-- C6 (counterexample): the turn-output contract (`ChatResponse`) declares
the tool-call list, the intent tag and the memory summary as optional — a
well-formed turn output may have all three absent, refuting "none of the
four fields is absent". -/
theorem chatResponse_optional_fields_absent :
    (ChatResponse.mk "Hello! How can I help you today?" none none none).tool_calls
        = none ∧
    (ChatResponse.mk "Hello! How can I help you today?" none none none).intent
        = none ∧
    (ChatResponse.mk "Hello! How can I help you today?" none none none).memory
        = none :=
  ⟨rfl, rfl, rfl⟩

/-- C6 (amended): the contract guarantees only the response text; the
tool-call list, intent tag and memory summary are optional, and a turn
completing with any combination of them absent is consumed normally — the
assistant message carries the response text, the tool calls exactly as
sent, and the intent when it is a non-empty string. -/
theorem ok_turn_appends_response_fields (st : ChatState) (msg : String)
    (r : ChatResponse) (now : String)
    (h1 : jsTrim msg ≠ "") (h2 : st.isLoading = false) :
    (handleSendMessage st msg (.ok r) now).1.messages =
      st.messages ++ [mkUserMessage msg now, mkAssistantMessage r now] ∧
    (mkAssistantMessage r now).content = r.response ∧
    (mkAssistantMessage r now).tool_calls = r.tool_calls ∧
    (mkAssistantMessage r now).intent = jsTruthyStr r.intent := by
  refine ⟨?_, rfl, rfl, rfl⟩
  simp [handleSendMessage, h1, h2]

/-- C6 (witness): the amended theorem at a response with all optional
fields absent. -/
theorem ok_turn_appends_response_fields_witness :
    (handleSendMessage ⟨[], false, none, none⟩ "hi"
        (.ok ⟨"Hello!", none, none, none⟩) "t").1.messages =
      [] ++ [mkUserMessage "hi" "t", mkAssistantMessage ⟨"Hello!", none, none, none⟩ "t"] ∧
    (mkAssistantMessage ⟨"Hello!", none, none, none⟩ "t").content = "Hello!" ∧
    (mkAssistantMessage ⟨"Hello!", none, none, none⟩ "t").tool_calls = none ∧
    (mkAssistantMessage ⟨"Hello!", none, none, none⟩ "t").intent =
      jsTruthyStr none :=
  ok_turn_appends_response_fields ⟨[], false, none, none⟩ "hi"
    ⟨"Hello!", none, none, none⟩ "t" (by decide) rfl

/-- C7: any failure of the chat request is absorbed by the hook: the send
operation completes as a total function, appending the apologetic error
message to the conversation, setting the error state, and clearing the
loading flag — the failure never escapes the handler. -/
theorem failed_request_handled_gracefully (st : ChatState) (msg : String)
    (e : Option String) (now : String)
    (h1 : jsTrim msg ≠ "") (h2 : st.isLoading = false) :
    (handleSendMessage st msg (.err e) now).1 =
      ⟨st.messages ++ [mkUserMessage msg now, mkErrorChatMessage e now],
        false, some (errorText e), st.storage⟩ := by
  simp [handleSendMessage, h1, h2]

/-- C7 (witness): a failing request (`HTTP error! status: 500`) on the
initial state. -/
theorem failed_request_handled_gracefully_witness :
    (handleSendMessage ⟨[], false, none, none⟩ "hi"
        (.err (some "HTTP error! status: 500")) "t").1 =
      ⟨[] ++ [mkUserMessage "hi" "t",
          mkErrorChatMessage (some "HTTP error! status: 500") "t"],
        false, some (errorText (some "HTTP error! status: 500")), none⟩ :=
  failed_request_handled_gracefully ⟨[], false, none, none⟩ "hi"
    (some "HTTP error! status: 500") "t" (by decide) rfl

/-- C9: every chat request the hook issues carries as history the last at
most 20 messages of the conversation state: the history has length at most
20 and is the image (role/content/timestamp only) of a suffix of the
message list, however long the conversation has grown. -/
theorem chat_request_history_is_bounded_suffix (st : ChatState) (msg : String)
    (b : BackendResult) (now : String)
    (h1 : jsTrim msg ≠ "") (h2 : st.isLoading = false) :
    (handleSendMessage st msg b now).2 = some ⟨msg, recentHistory st.messages⟩ ∧
    (recentHistory st.messages).length ≤ 20 ∧
    recentHistory st.messages =
      (st.messages.drop (st.messages.length - 20)).map
        (fun m => ⟨m.role, m.content, m.timestamp, none, none⟩) ∧
    st.messages.drop (st.messages.length - 20) <:+ st.messages := by
  refine ⟨?_, ?_, rfl, List.drop_suffix _ _⟩
  · cases b <;> simp [handleSendMessage, h1, h2]
  · rw [recentHistory, List.length_map, List.length_drop]
    omega

/-- C9 (witness): the theorem at a one-message conversation. -/
theorem chat_request_history_is_bounded_suffix_witness :
    (handleSendMessage
        ⟨[⟨.user, "hey", some "t0", none, none⟩], false, none, none⟩ "hi"
        (.ok ⟨"Hello!", none, none, none⟩) "t").2 =
      some ⟨"hi", recentHistory [⟨.user, "hey", some "t0", none, none⟩]⟩ ∧
    (recentHistory [⟨.user, "hey", some "t0", none, none⟩]).length ≤ 20 ∧
    recentHistory [⟨.user, "hey", some "t0", none, none⟩] =
      (([⟨.user, "hey", some "t0", none, none⟩] : List ChatMessage).drop
          (([⟨.user, "hey", some "t0", none, none⟩] : List ChatMessage).length - 20)).map
        (fun m => ⟨m.role, m.content, m.timestamp, none, none⟩) ∧
    ([⟨.user, "hey", some "t0", none, none⟩] : List ChatMessage).drop
        (([⟨.user, "hey", some "t0", none, none⟩] : List ChatMessage).length - 20) <:+
      [⟨.user, "hey", some "t0", none, none⟩] :=
  chat_request_history_is_bounded_suffix
    ⟨[⟨.user, "hey", some "t0", none, none⟩], false, none, none⟩ "hi"
    (.ok ⟨"Hello!", none, none, none⟩) "t" (by decide) rfl

/-- C10: on an empty or whitespace-only input, the composer does not invoke
`onSend`, and the chat hook performs no action at all: no request is
issued and messages, error, loading flag and persisted history are all
unchanged. -/
theorem blank_input_no_action (msg : String) (d : Bool) (st : ChatState)
    (b : BackendResult) (now : String) (h : jsTrim msg = "") :
    composerSend msg d = none ∧ chatTurn st msg b now = (st, none) := by
  constructor
  · simp [composerSend, h]
  · simp [chatTurn, handleSendMessage, h]

/-- C10 (witness): the theorem at the whitespace input `"  "`. -/
theorem blank_input_no_action_witness :
    composerSend "  " false = none ∧
    chatTurn ⟨[], false, none, none⟩ "  " (.err none) "t" =
      (⟨[], false, none, none⟩, none) :=
  blank_input_no_action "  " false ⟨[], false, none, none⟩ (.err none) "t"
    (by decide)

end RagZus
